import Mathlib

/-!
Verification of the asynchronous task-orchestration and playback-control
subsystem of a Piper-TTS desktop application (src/functions.py and
src/pyqt/window.py), via a shallow embedding in Lean.

External collaborators (the filesystem, the Piper model loader, the
synthesis engine, the audio device) are modelled as explicit oracle
parameters; the repository's own control flow (validation, status
messages, slot updates, signal wiring) is translated faithfully from the
Python source.
-/

/-- Drop leading and trailing whitespace from a character list. -/
def stripChars (l : List Char) : List Char :=
  ((l.dropWhile Char.isWhitespace).reverse.dropWhile Char.isWhitespace).reverse

/-- Python `str.strip()`: the string with leading and trailing whitespace
removed. -/
def pyStrip (s : String) : String := String.mk (stripChars s.data)

/-- Code-point lexicographic order on character lists, as Python compares
strings. -/
def lexLeB : List Char → List Char → Bool
  | [], _ => true
  | _ :: _, [] => false
  | x :: xs, y :: ys =>
    if x.toNat < y.toNat then true
    else if x.toNat = y.toNat then lexLeB xs ys
    else false

/-- Code-point lexicographic order on strings. -/
def strLeB (a b : String) : Bool := lexLeB a.data b.data

/-- Insert a string into an already sorted list. -/
def insertSorted (x : String) : List String → List String
  | [] => [x]
  | y :: ys => if strLeB x y then x :: y :: ys else y :: insertSorted x ys

/-- Python `sorted` on strings (insertion sort by code-point order). -/
def sortStrings (l : List String) : List String := l.foldr insertSorted []

/-- Does `s` end with `suffix`? (`fnmatch` of the glob pattern `*.onnx` is
exactly a suffix test.) -/
def strEndsWith (s suffix : String) : Bool := suffix.data.isSuffixOf s.data

/-- Opaque handle to a loaded Piper voice model, as produced by
`PiperVoice.load`: an identifier plus the model's sample rate
(`voice.config.sample_rate`; `0` models a missing/falsy sample rate,
matching Python truthiness of `if sr`). -/
structure Voice where
  id : Nat
  sampleRate : Nat
deriving DecidableEq, Repr

/-- Filesystem / backend oracle consumed by `load_voice_model`:
`fileExists` answers `Path.exists`, `backend` is `PiperVoice.load`
(success or a raised exception message), `cudaAvailable` is
`is_cuda_available()`. -/
structure LoadEnv where
  fileExists : String → Bool
  backend : String → Bool → Except String Voice
  cudaAvailable : Bool

/-- Filesystem accesses performed by a load, recorded so that claims about
"no filesystem access" are statable. -/
inductive FsOp
  | checkExists (path : String)
  | backendLoad (path : String)
deriving DecidableEq, Repr

/-- MODELS_DIR prefix used when joining model names (`MODELS_DIR / model_name`
with the default `models` directory). -/
def modelsDir : String := "models/"

/-- `get_config_path`: `model_path.with_suffix(model_path.suffix + ".json")`,
which for `name.onnx` appends `.json`. -/
def get_config_path (modelPath : String) : String := modelPath ++ ".json"

/-- Embedding of `functions.load_voice_model`: the sentinel check, the two
existence checks, the backend load, and the exact status messages, returning
the `(voice, status)` pair together with the trace of filesystem/backend
operations attempted. -/
def load_voice_model (env : LoadEnv) (modelName : String) (useCuda : Bool) :
    (Option Voice × String) × List FsOp :=
  if modelName = "No models" then
    ((none, "No models found"), [])
  else
    let modelPath := modelsDir ++ modelName
    let cfgPath := get_config_path modelPath
    if env.fileExists modelPath = false then
      ((none, "Model not found: " ++ modelName), [FsOp.checkExists modelPath])
    else if env.fileExists cfgPath = false then
      ((none, "Missing config: " ++ modelName ++ ".json"),
        [FsOp.checkExists modelPath, FsOp.checkExists cfgPath])
    else
      let trace := [FsOp.checkExists modelPath, FsOp.checkExists cfgPath,
        FsOp.backendLoad modelPath]
      match env.backend modelPath (useCuda && env.cudaAvailable) with
      | Except.ok v =>
          let device := if useCuda && env.cudaAvailable then "CUDA" else "CPU"
          let base := "Loaded: " ++ modelName ++ " (" ++ device ++ ")"
          let status :=
            if v.sampleRate ≠ 0 then
              base ++ " @ " ++ toString v.sampleRate ++ " Hz"
            else base
          ((some v, status), trace)
      | Except.error e =>
          ((none, "Load error: " ++ e), trace)

/-- Embedding of `functions.list_models`: the sorted `.onnx` names in the
models directory, or the `"No models"` sentinel when there are none
(`models or ["No models"]`). -/
def list_models (files : List String) : List String :=
  let models := sortStrings (files.filter (fun f => strEndsWith f ".onnx"))
  if models.isEmpty then ["No models"] else models

/-- Interactive-thread state relevant to model loading: the
`MainWindow.voice` slot and the log of status messages appended by
`_set_status`. -/
structure WindowSt where
  voice : Option Voice
  statuses : List String
deriving DecidableEq, Repr

/-- Embedding of `MainWindow._on_model_loaded`: unconditionally stores the
delivered voice (even `None` on failure) into the current-voice slot and
logs the status. -/
def on_model_loaded (w : WindowSt) (result : Option Voice × String) : WindowSt :=
  { voice := result.1, statuses := w.statuses ++ [result.2] }

/-- Delivery of a sequence of load-task completions to the interactive
thread, in completion order (each `finished` signal calls
`_on_model_loaded`). -/
def run_completions (w : WindowSt) (results : List (Option Voice × String)) : WindowSt :=
  results.foldl on_model_loaded w

/-- State of `functions.AudioPlayer`: its `playing` and `stopped` flags. -/
structure AudioPlayerSt where
  playing : Bool
  stopped : Bool
deriving DecidableEq, Repr

/-- Commands issued to the `sounddevice` audio device. -/
inductive DeviceCmd
  | devPlay
  | devStop
deriving DecidableEq, Repr

/-- Embedding of `AudioPlayer.play`: set the flags and issue `sd.play`. -/
def player_play (_p : AudioPlayerSt) : AudioPlayerSt × List DeviceCmd :=
  ({ playing := true, stopped := false }, [DeviceCmd.devPlay])

/-- Embedding of `AudioPlayer.stop`: guarded by `self.playing`; when not
playing it changes nothing and issues no device command. -/
def player_stop (p : AudioPlayerSt) : AudioPlayerSt × List DeviceCmd :=
  if p.playing then ({ playing := false, stopped := true }, [DeviceCmd.devStop])
  else (p, [])

/-- Embedding of `AudioPlayer.is_playing`. -/
def is_playing (p : AudioPlayerSt) : Bool := p.playing

/-- Phase of a synthesize-and-play session spawned by `_play_audio`: the
worker first synthesizes, then starts the device and waits, then finishes.
A session is non-Idle from acceptance until it is done. -/
inductive Phase
  | synthesizing
  | devicePlaying
  | done
deriving DecidableEq, Repr

/-- Interactive-thread view of the play/stop subsystem: the shared
`AudioPlayer`, the spawned play sessions (in spawn order, with their current
phase), the status log, and the device commands issued so far. -/
structure PlaySys where
  voiceLoaded : Bool
  text : String
  player : AudioPlayerSt
  sessions : List Phase
  statuses : List String
  deviceCmds : List DeviceCmd
deriving DecidableEq, Repr

/-- Count of play sessions that are not yet terminated (non-Idle). -/
def nonIdleCount (s : PlaySys) : Nat :=
  (s.sessions.filter (fun ph => ph ≠ Phase.done)).length

/-- Embedding of `MainWindow._play_audio`: validate voice and text, emit
"Synthesizing..." and spawn a worker session (which starts in its
synthesis phase; the `AudioPlayer` flags are untouched until the worker
reaches `audio_player.play`). -/
def play_audio (s : PlaySys) : PlaySys :=
  if s.voiceLoaded = false then
    { s with statuses := s.statuses ++ ["Load a voice model first"] }
  else if pyStrip s.text = "" then
    { s with statuses := s.statuses ++ ["Enter text to speak"] }
  else
    { s with statuses := s.statuses ++ ["Synthesizing..."],
             sessions := s.sessions ++ [Phase.synthesizing] }

/-- Embedding of `MainWindow._stop_playback`: forwards to
`AudioPlayer.stop` and then unconditionally emits "Stopping...". -/
def stop_playback (s : PlaySys) : PlaySys :=
  let pc := player_stop s.player
  { s with player := pc.1,
           deviceCmds := s.deviceCmds ++ pc.2,
           statuses := s.statuses ++ ["Stopping..."] }

/-- Embedding of `MainWindow._play_stop`: route on
`audio_player.is_playing()` — stop when true, otherwise submit a new
synthesize-and-play request. -/
def play_stop (s : PlaySys) : PlaySys :=
  if is_playing s.player then stop_playback s else play_audio s

/-- Worker-side step of a session at index `i`: synthesis has finished and
the worker calls `audio_player.play` — the session enters its
device-playing phase and the player flags are set. Mirrors the body of
`_play_audio.worker` between `synthesize_to_audio_array` and
`audio_player.wait`. -/
def session_device_start (s : PlaySys) (i : Nat) : PlaySys :=
  if s.sessions.getD i Phase.done = Phase.synthesizing then
    let pc := player_play s.player
    { s with player := pc.1,
             deviceCmds := s.deviceCmds ++ pc.2,
             sessions := s.sessions.set i Phase.devicePlaying }
  else s

/-- Outcome of running a task body inside `run_worker`: a normal return or
an exception escaping the body. -/
inductive TaskOutcome (R : Type)
  | ret (r : R)
  | exc (msg : String)
deriving DecidableEq, Repr

/-- One `WorkerSignals` emission as performed by a `run_worker` body. -/
inductive Emission (R : Type)
  | finished (r : R)
  | errorSig (msg : String)
  | statusSig (msg : String)
deriving DecidableEq, Repr

/-- Is this emission a terminal (`finished`) result? -/
def isFinished {R : Type} : Emission R → Bool
  | Emission.finished _ => true
  | _ => false

/-- Embedding of the `run_worker` bodies used by `_on_model_changed`,
`_download_voice` and `_export_wav`: emit `finished(result)` on normal
return, `error(str(e))` on an exception. -/
def run_worker_generic {R : Type} : TaskOutcome R → List (Emission R)
  | TaskOutcome.ret r => [Emission.finished r]
  | TaskOutcome.exc e => [Emission.errorSig e]

/-- Embedding of `_play_audio.run_worker`: emit `status("Playing...")`,
then on normal return `finished(result)`; on an exception `error(str(e))`
followed by `finished((True, "Playback error: " + str(e)))`. -/
def run_worker_play : TaskOutcome (Bool × String) → List (Emission (Bool × String))
  | TaskOutcome.ret r => [Emission.statusSig "Playing...", Emission.finished r]
  | TaskOutcome.exc e =>
      [Emission.statusSig "Playing...", Emission.errorSig e,
       Emission.finished (true, "Playback error: " ++ e)]

/-- Signal connections made for load, download and export submissions:
only `finished` is connected (`signals.finished.connect(...)`); `error`
and `status` have no connected slot. -/
def genericConnected {R : Type} : Emission R → Bool
  | Emission.finished _ => true
  | _ => false

/-- Signal connections made for a play submission: `status` and `finished`
are connected, `error` is not. -/
def playConnected : Emission (Bool × String) → Bool
  | Emission.finished _ => true
  | Emission.statusSig _ => true
  | Emission.errorSig _ => false

/-- Number of terminal results actually delivered to the interactive
thread: emissions whose signal has a connected slot and that are
`finished` deliveries. -/
def terminalDeliveries {R : Type} (connected : Emission R → Bool)
    (emissions : List (Emission R)) : Nat :=
  ((emissions.filter connected).filter (fun e => isFinished e)).length

/-- In-memory audio: signed 16-bit samples plus a sample rate, as stored in
a (mono) WAV container. -/
structure WavData where
  sampleRate : Nat
  samples : List Int
deriving DecidableEq, Repr

/-- Synthesis parameters as passed to `SynthesisConfig` (volume,
length_scale, noise_scale, noise_w_scale, normalize_audio). Slider values
are modelled as integers in fixed-point units; no claim computes with
them, they are only captured and forwarded. -/
structure SynthesisConfig where
  volume : Int
  length_scale : Int
  noise_scale : Int
  noise_w_scale : Int
  normalize_audio : Bool
deriving DecidableEq, Repr

/-- The `SynthesisConfig(...)` construction shared verbatim by
`synthesize_to_wav` and `synthesize_to_audio_array`. -/
def mkSynthesisConfig (volume speed noise noise_w : Int) (normalize : Bool) :
    SynthesisConfig :=
  { volume := volume, length_scale := speed, noise_scale := noise,
    noise_w_scale := noise_w, normalize_audio := normalize }

/-- The external synthesis engine `voice.synthesize_wav`: produces the WAV
content for a (voice, text, config) triple, or raises. Modelled as an
oracle function, hence deterministic per (voice, text, config). -/
def SynthEngine : Type := Voice → String → SynthesisConfig → Except String WavData

/-- `Path(output_path).name`: the final component of the path. -/
def baseName (path : String) : String :=
  String.mk (path.data.foldl (fun acc c => if c = '/' then [] else acc ++ [c]) [])

/-- Embedding of `functions.synthesize_to_wav`: build the config, run the
engine, write the WAV container at `output_path`, and return
`(success, message)`. The filesystem is a map from paths to WAV contents;
on an engine exception no complete container is written (partial contents
of an aborted `wave.open` are not modelled — no claim depends on them). -/
def synthesize_to_wav (engine : SynthEngine) (fs : String → Option WavData)
    (voice : Voice) (text : String) (outputPath : String)
    (volume speed noise noise_w : Int) (normalize : Bool) :
    (String → Option WavData) × (Bool × String) :=
  let cfg := mkSynthesisConfig volume speed noise noise_w normalize
  match engine voice text cfg with
  | Except.ok w =>
      (fun p => if p = outputPath then some w else fs p,
       (true, "Saved: " ++ baseName outputPath))
  | Except.error e => (fs, (false, "Export error: " ++ e))

/-- Embedding of `functions.synthesize_to_audio_array`: build the same
config, synthesize into an in-memory WAV buffer, read it back as an int16
array plus frame rate. Returns `(audio_data, sample_rate, status)`. -/
def synthesize_to_audio_array (engine : SynthEngine) (voice : Voice)
    (text : String) (volume speed noise noise_w : Int) (normalize : Bool) :
    Option (List Int) × Nat × String :=
  let cfg := mkSynthesisConfig volume speed noise noise_w normalize
  match engine voice text cfg with
  | Except.ok w => (some w.samples, w.sampleRate, "Success")
  | Except.error e => (none, 0, "Synthesis error: " ++ e)

/-- UI state read by `_export_wav` and `_play_audio` at submission time:
the current voice slot, the text widget, the four sliders and the
normalize checkbox. -/
structure UISt where
  voice : Option Voice
  text : String
  volume : Int
  speed : Int
  noise : Int
  noise_w : Int
  normalize : Bool
deriving DecidableEq, Repr

/-- Observable effect of one `_export_wav` invocation: the statuses
emitted (synchronous validation plus, later, the worker's terminal
message), whether a background task was spawned, and the filesystem after
the operation. The save-dialog result is an input (`none` = cancelled). -/
structure ExportEffect where
  statuses : List String
  spawnedTask : Bool
  fs : String → Option WavData

/-- Embedding of `MainWindow._export_wav`: validate the voice slot and
stripped text synchronously (no task, no dialog, no write on failure);
then the save dialog; then emit "Generating WAV...", spawn the worker
running `synthesize_to_wav` on the captured values, and deliver its
message via the connected `finished` slot. -/
def export_wav (engine : SynthEngine) (fs0 : String → Option WavData)
    (ui : UISt) (dialogPath : Option String) : ExportEffect :=
  match ui.voice with
  | none => ⟨["Load a voice model first"], false, fs0⟩
  | some v =>
    if pyStrip ui.text = "" then ⟨["Enter text to speak"], false, fs0⟩
    else
      match dialogPath with
      | none => ⟨[], false, fs0⟩
      | some filePath =>
        let r := synthesize_to_wav engine fs0 v (pyStrip ui.text) filePath
          ui.volume ui.speed ui.noise ui.noise_w ui.normalize
        ⟨["Generating WAV...", r.2.2], true, r.1⟩

/-- Values captured by value into the worker closure at submission time
(`voice = self.voice; volume = self.volume.value(); ...` in `_export_wav`
and `_play_audio`). -/
structure CapturedTask where
  voice : Voice
  text : String
  volume : Int
  speed : Int
  noise : Int
  noise_w : Int
  normalize : Bool
deriving DecidableEq, Repr

/-- Capture of the UI values at submission time. -/
def captureParams (ui : UISt) (v : Voice) : CapturedTask :=
  { voice := v, text := pyStrip ui.text, volume := ui.volume, speed := ui.speed,
    noise := ui.noise, noise_w := ui.noise_w, normalize := ui.normalize }

/-- Window state carrying the live UI plus the submitted-but-not-yet-run
worker tasks (at most one export and one play pending, enough for the
capture claim). -/
structure Win where
  ui : UISt
  pendingExport : Option (CapturedTask × String)
  pendingPlay : Option CapturedTask

/-- A UI parameter change made through the widgets after submission. -/
inductive UIMut
  | setVolume (x : Int)
  | setSpeed (x : Int)
  | setNoise (x : Int)
  | setNoiseW (x : Int)
  | setNormalize (b : Bool)
deriving DecidableEq, Repr

/-- Apply a widget change to the UI state. -/
def applyMut (ui : UISt) : UIMut → UISt
  | UIMut.setVolume x => { ui with volume := x }
  | UIMut.setSpeed x => { ui with speed := x }
  | UIMut.setNoise x => { ui with noise := x }
  | UIMut.setNoiseW x => { ui with noise_w := x }
  | UIMut.setNormalize b => { ui with normalize := b }

/-- Apply a sequence of widget changes to the window. -/
def uiSteps (w : Win) (ms : List UIMut) : Win :=
  { w with ui := ms.foldl applyMut w.ui }

/-- Submission step of `_export_wav` past validation and the dialog: the
worker closure is stored with the values captured from the UI now. -/
def submitExport (w : Win) (path : String) : Win :=
  match w.ui.voice with
  | none => w
  | some v =>
    if pyStrip w.ui.text = "" then w
    else { w with pendingExport := some (captureParams w.ui v, path) }

/-- Submission step of `_play_audio` past validation: the worker closure
is stored with the values captured from the UI now. -/
def submitPlay (w : Win) : Win :=
  match w.ui.voice with
  | none => w
  | some v =>
    if pyStrip w.ui.text = "" then w
    else { w with pendingPlay := some (captureParams w.ui v) }

/-- Running the pending export worker: `synthesize_to_wav` on the captured
values only. -/
def runPendingExport (engine : SynthEngine) (fs0 : String → Option WavData)
    (w : Win) : Option ((String → Option WavData) × (Bool × String)) :=
  w.pendingExport.map (fun tp =>
    synthesize_to_wav engine fs0 tp.1.voice tp.1.text tp.2
      tp.1.volume tp.1.speed tp.1.noise tp.1.noise_w tp.1.normalize)

/-- Running the pending play worker's synthesis: `synthesize_to_audio_array`
on the captured values only. -/
def runPendingPlay (engine : SynthEngine) (w : Win) :
    Option (Option (List Int) × Nat × String) :=
  w.pendingPlay.map (fun t =>
    synthesize_to_audio_array engine t.voice t.text
      t.volume t.speed t.noise t.noise_w t.normalize)

/-- Process-global interpreter state mutated by `download_voice_model`:
`sys.argv` plus the identities of the objects bound to `sys.stdout` and
`sys.stderr` (as abstract handles). -/
structure SysSt where
  argv : List String
  stdoutH : Nat
  stderrH : Nat
deriving DecidableEq, Repr

/-- One assignment to a `sys` global performed by `download_voice_model`. -/
inductive SysAssign
  | setArgv (v : List String)
  | setStdout (h : Nat)
  | setStderr (h : Nat)
deriving DecidableEq, Repr

/-- Apply one `sys` global assignment. -/
def applySysAssign (s : SysSt) : SysAssign → SysSt
  | SysAssign.setArgv v => { s with argv := v }
  | SysAssign.setStdout h => { s with stdoutH := h }
  | SysAssign.setStderr h => { s with stderrH := h }

/-- Apply a sequence of `sys` global assignments. -/
def applySysAssigns (s : SysSt) (l : List SysAssign) : SysSt :=
  l.foldl applySysAssign s

/-- Behaviour of the `piper.download_voices.main()` call: normal return,
`SystemExit` with an exit code (`None` modelled as `none`), an ordinary
`Exception`, or a `BaseException` that is not an `Exception` (e.g.
`KeyboardInterrupt`) which propagates out of the function. -/
inductive DlOutcome
  | normal
  | sysExit (code : Option Int)
  | raiseExc (msg : String)
  | raiseBase (msg : String)
deriving DecidableEq, Repr

/-- Embedding of `functions.download_voice_model`: save
`sys.argv/stdout/stderr`, redirect them (`sys.argv = [...]`,
`sys.stdout = sys.stderr = buf`), run the downloader, compute the
`(success, message)` result per path, and in the `finally` block restore
the three globals from the saved values on every path — so the emitted
assignment trace is the same redirect-then-restore sequence on all paths.
The returned `Except` is `error` exactly when a non-`Exception`
`BaseException` propagates to the caller; `bufText` is what the
downloader wrote to the redirected streams and `bufH` the handle of the
redirection `StringIO` buffer. -/
def download_voice_model (s0 : SysSt) (voiceId : String) (outcome : DlOutcome)
    (bufText : String) (bufH : Nat) :
    List SysAssign × Except String (Bool × String) :=
  let argv0 := s0.argv
  let out0 := s0.stdoutH
  let err0 := s0.stderrH
  let redirect : List SysAssign :=
    [SysAssign.setArgv ["piper.download_voices", voiceId, "--data-dir", "models"],
     SysAssign.setStdout bufH, SysAssign.setStderr bufH]
  let restore : List SysAssign :=
    [SysAssign.setArgv argv0, SysAssign.setStdout out0, SysAssign.setStderr err0]
  let result : Except String (Bool × String) :=
    match outcome with
    | DlOutcome.normal => Except.ok (true, "Downloaded: " ++ voiceId)
    | DlOutcome.sysExit code =>
        if code.getD 0 = 0 then Except.ok (true, "Downloaded: " ++ voiceId)
        else
          let text := pyStrip bufText
          Except.ok (false,
            if text = "" then "Download failed: " ++ voiceId else text)
    | DlOutcome.raiseExc e => Except.ok (false, "Download error: " ++ e)
    | DlOutcome.raiseBase e => Except.error e
  (redirect ++ restore, result)

/-- C1 (counterexample): two overlapping load requests, submitted as
voice 1 ("a.onnx", first) then voice 2 ("b.onnx", last), whose load tasks
complete in the opposite order. The claim demands that the current-Voice
slot end at the last-submitted request's result (voice 2); the code's
`_on_model_loaded` accepts every completion unconditionally — there is no
sequence-number stamp — so the slot ends at voice 1, the result of the
first-submitted (last-completed) request. -/
theorem c1_counterexample :
    (run_completions ⟨none, []⟩
      [(some ⟨2, 22050⟩, "Loaded: b.onnx (CPU) @ 22050 Hz"),
       (some ⟨1, 22050⟩, "Loaded: a.onnx (CPU) @ 22050 Hz")]).voice
      = some ⟨1, 22050⟩ ∧ some (⟨1, 22050⟩ : Voice) ≠ some ⟨2, 22050⟩ := by
  decide

/-- C1 (amended): after any sequence of overlapping load-task completions
is delivered to `_on_model_loaded`, the current-Voice slot holds the voice
component of the LAST-COMPLETED task's result (successful or not);
completions are accepted unconditionally, with no sequence-number
protocol, so completion order — not submission order — decides. -/
theorem c1_amended_last_completion_wins (w : WindowSt)
    (results : List (Option Voice × String)) (r : Option Voice × String) :
    (run_completions w (results ++ [r])).voice = r.1 := by
  simp [run_completions, List.foldl_append, on_model_loaded]

/-- C2 (counterexample): a failing load (model file absent) returns
`(None, "Model not found: …")`, and delivering that result through
`_on_model_loaded` to a window whose current voice is voice 1 does NOT
leave the previous voice unchanged — the slot is overwritten. -/
theorem c2_counterexample :
    (load_voice_model ⟨fun _ => false, fun _ _ => Except.error "e", false⟩
        "missing.onnx" false).1 = (none, "Model not found: missing.onnx") ∧
    (on_model_loaded ⟨some ⟨1, 22050⟩, []⟩
        (none, "Model not found: missing.onnx")).voice ≠ some ⟨1, 22050⟩ := by
  decide

/-- C2 (amended): every failing load request (missing model, missing
sidecar config, or backend load error — any result whose voice component
is `none`) reports its failure status message through the completion
handler, but the handler overwrites the current-Voice slot with `none`:
the previously loaded voice is cleared, not left unchanged. -/
theorem c2_amended_failure_reports_and_clears (env : LoadEnv) (name : String)
    (useCuda : Bool) (w : WindowSt)
    (hfail : ((load_voice_model env name useCuda).1).1 = none) :
    (on_model_loaded w (load_voice_model env name useCuda).1).voice = none ∧
    (on_model_loaded w (load_voice_model env name useCuda).1).statuses
      = w.statuses ++ [((load_voice_model env name useCuda).1).2] := by
  exact ⟨by simp [on_model_loaded, hfail], by simp [on_model_loaded]⟩

/-- C2 (witness): the amended theorem applied to a concrete failing load
(no file exists) against a window holding voice 1. -/
theorem c2_amended_witness :
    (on_model_loaded ⟨some ⟨1, 22050⟩, []⟩
        (load_voice_model ⟨fun _ => false, fun _ _ => Except.error "e", false⟩
          "missing.onnx" false).1).voice = none ∧
    (on_model_loaded ⟨some ⟨1, 22050⟩, []⟩
        (load_voice_model ⟨fun _ => false, fun _ _ => Except.error "e", false⟩
          "missing.onnx" false).1).statuses
      = [] ++ [((load_voice_model ⟨fun _ => false, fun _ _ => Except.error "e", false⟩
          "missing.onnx" false).1).2] :=
  c2_amended_failure_reports_and_clears
    ⟨fun _ => false, fun _ _ => Except.error "e", false⟩
    "missing.onnx" false ⟨some ⟨1, 22050⟩, []⟩ (by decide)

/-- C6 (counterexample): with the player Idle (`playing = false`),
`_stop_playback` leaves the player state untouched and issues no device
stop, but it still emits the "Stopping..." status event unconditionally —
contradicting the claim that no status event is emitted. -/
theorem c6_counterexample :
    (⟨true, "hello", ⟨false, false⟩, [], [], []⟩ : PlaySys).player.playing
        = false ∧
    (stop_playback ⟨true, "hello", ⟨false, false⟩, [], [], []⟩).statuses
        = ["Stopping..."] := by
  decide

/-- C6 (amended): calling `_stop_playback` while playback is Idle changes
no player state and issues no device stop command (`AudioPlayer.stop` is
guarded by `self.playing`), but it does emit exactly one "Stopping..."
status event; the no-event part of the claim holds only for
`AudioPlayer.stop` itself, not for the stopPlayback entry point. -/
theorem c6_amended_stop_while_idle (s : PlaySys)
    (h : s.player.playing = false) :
    (stop_playback s).player = s.player ∧
    (stop_playback s).deviceCmds = s.deviceCmds ∧
    (stop_playback s).statuses = s.statuses ++ ["Stopping..."] := by
  unfold stop_playback player_stop
  simp [h]

/-- C6 (witness): the amended theorem applied to a concrete Idle state. -/
theorem c6_amended_witness :
    (stop_playback ⟨true, "hello", ⟨false, false⟩, [], [], []⟩).player
        = (⟨true, "hello", ⟨false, false⟩, [], [], []⟩ : PlaySys).player ∧
    (stop_playback ⟨true, "hello", ⟨false, false⟩, [], [], []⟩).deviceCmds
        = (⟨true, "hello", ⟨false, false⟩, [], [], []⟩ : PlaySys).deviceCmds ∧
    (stop_playback ⟨true, "hello", ⟨false, false⟩, [], [], []⟩).statuses
        = (⟨true, "hello", ⟨false, false⟩, [], [], []⟩ : PlaySys).statuses
          ++ ["Stopping..."] :=
  c6_amended_stop_while_idle ⟨true, "hello", ⟨false, false⟩, [], [], []⟩ rfl

/-- C9: `list_models` never returns an empty list; when no `.onnx` file is
present it returns exactly the `"No models"` sentinel; and
`load_voice_model` invoked with the sentinel name returns
`(None, "No models found")` with an empty filesystem/backend access
trace (for any filesystem and any CUDA setting). -/
theorem c9_sentinel_no_models (files : List String) (env : LoadEnv)
    (useCuda : Bool) :
    list_models files ≠ [] ∧
    (files.filter (fun f => strEndsWith f ".onnx") = [] →
      list_models files = ["No models"]) ∧
    load_voice_model env "No models" useCuda
      = ((none, "No models found"), []) := by
  refine ⟨?_, ?_, by simp [load_voice_model]⟩
  · simp only [list_models]
    split
    · simp
    · rename_i h
      intro hnil
      rw [hnil] at h
      simp at h
  · intro h
    simp [list_models, h, sortStrings]

/-- C9 (witness): a models directory containing only a non-`.onnx` file
yields the sentinel, and loading the sentinel performs no filesystem
access. -/
theorem c9_sentinel_witness :
    list_models ["readme.txt"] = ["No models"] ∧
    load_voice_model ⟨fun _ => true, fun _ _ => Except.error "e", false⟩
        "No models" false = ((none, "No models found"), []) :=
  ⟨(c9_sentinel_no_models ["readme.txt"]
      ⟨fun _ => true, fun _ _ => Except.error "e", false⟩ false).2.1 (by decide),
   (c9_sentinel_no_models ["readme.txt"]
      ⟨fun _ => true, fun _ _ => Except.error "e", false⟩ false).2.2⟩

/-- C3 (counterexample): starting from an idle system with a voice loaded
and non-empty text, a first play/stop press accepts a synthesize-and-play
session; while that session is still synthesizing (`AudioPlayer.playing`
is still false — the flag is set only when the worker reaches
`audio_player.play`), a second press is routed to `_play_audio` again and
accepts a second session. Two sessions are then non-Idle, refuting both
the rejection claim and the at-most-one-non-Idle invariant. -/
theorem c3_counterexample :
    nonIdleCount
      (play_stop (play_stop ⟨true, "hello", ⟨false, false⟩, [], [], []⟩)) = 2 := by
  decide

/-- C3 (amended): a play/stop press is rejected (routed to
`_stop_playback`, spawning no session) exactly when the `AudioPlayer`'s
`playing` flag is true, i.e. only once an accepted request's device
session has actually started; while the player flag is false — including
the whole synthesis phase of an already-accepted request — a press with a
loaded voice and non-empty text is accepted and appends a new session. -/
theorem c3_amended_rejection_gated_on_player_flag (s : PlaySys) :
    (s.player.playing = true →
      play_stop s = stop_playback s ∧ (play_stop s).sessions = s.sessions) ∧
    (s.player.playing = false → s.voiceLoaded = true → pyStrip s.text ≠ "" →
      (play_stop s).sessions = s.sessions ++ [Phase.synthesizing]) := by
  constructor
  · intro h
    refine ⟨by simp [play_stop, is_playing, h], ?_⟩
    simp [play_stop, is_playing, h, stop_playback]
  · intro h hv ht
    simp [play_stop, is_playing, h, play_audio, hv, ht]

/-- C3 (witness): the amended theorem applied to a state whose device
session is running (player flag true): the press is routed to stop and
spawns no session. -/
theorem c3_amended_witness :
    play_stop ⟨true, "hello", ⟨true, false⟩, [Phase.devicePlaying], [], []⟩
        = stop_playback
            ⟨true, "hello", ⟨true, false⟩, [Phase.devicePlaying], [], []⟩ ∧
    (play_stop
        ⟨true, "hello", ⟨true, false⟩, [Phase.devicePlaying], [], []⟩).sessions
        = [Phase.devicePlaying] :=
  (c3_amended_rejection_gated_on_player_flag
    ⟨true, "hello", ⟨true, false⟩, [Phase.devicePlaying], [], []⟩).1 rfl

/-- C4 (counterexample): for a load/download/export submission only the
`finished` signal is connected; when the task body raises, `run_worker`
emits only `error(str(e))`, so zero terminal results are delivered to the
interactive thread — not exactly one as claimed. -/
theorem c4_counterexample :
    terminalDeliveries (genericConnected (R := Option Voice × String))
      (run_worker_generic (TaskOutcome.exc "boom")) = 0 := by
  decide

/-- C4 (amended): every submitted task delivers AT MOST one terminal
result to the interactive thread, and exactly one when the task body
returns normally; the synthesize-and-play worker delivers exactly one on
every path (its exception handler emits a final `finished`); but a
load/download/export worker whose body raises delivers zero, because the
`error` signal it emits has no connected slot. -/
theorem c4_amended_terminal_delivery {R : Type} (o : TaskOutcome R)
    (op : TaskOutcome (Bool × String)) :
    terminalDeliveries genericConnected (run_worker_generic o) ≤ 1 ∧
    (∀ r : R, o = TaskOutcome.ret r →
      terminalDeliveries genericConnected (run_worker_generic o) = 1) ∧
    ((∃ e, o = TaskOutcome.exc e) →
      terminalDeliveries genericConnected (run_worker_generic o) = 0) ∧
    terminalDeliveries playConnected (run_worker_play op) = 1 := by
  cases o <;> cases op <;>
    simp [terminalDeliveries, run_worker_generic, run_worker_play,
      genericConnected, playConnected, isFinished]

/-- C4 (witness): the amended theorem at concrete outcomes — a normally
returning load task delivers exactly one terminal result, and a play
worker whose body raises still delivers exactly one. -/
theorem c4_amended_witness :
    terminalDeliveries (genericConnected (R := Option Voice × String))
      (run_worker_generic (TaskOutcome.ret (some ⟨1, 22050⟩, "ok"))) = 1 ∧
    terminalDeliveries playConnected
      (run_worker_play (TaskOutcome.exc "device gone")) = 1 :=
  ⟨(c4_amended_terminal_delivery
      (TaskOutcome.ret (some ⟨1, 22050⟩, "ok"))
      (TaskOutcome.exc "device gone")).2.1 _ rfl,
   (c4_amended_terminal_delivery
      (TaskOutcome.ret ((some ⟨1, 22050⟩ : Option Voice), "ok"))
      (TaskOutcome.exc "device gone")).2.2.2⟩

/-- C5: with the synthesis engine succeeding on the given (voice, text,
parameters) triple, exporting via `synthesize_to_wav` and reading the
written container back yields an audio buffer with the same sample count
and the same sample rate as `synthesize_to_audio_array` produces directly
in memory — both paths build the identical `SynthesisConfig` and invoke
the same engine. -/
theorem c5_export_roundtrip_matches_direct (engine : SynthEngine)
    (fs : String → Option WavData) (voice : Voice)
    (text outputPath : String) (volume speed noise noise_w : Int)
    (normalize : Bool) (w : WavData)
    (hok : engine voice text
        (mkSynthesisConfig volume speed noise noise_w normalize)
      = Except.ok w) :
    ∃ fileWav audio rate,
      (synthesize_to_wav engine fs voice text outputPath
          volume speed noise noise_w normalize).1 outputPath = some fileWav ∧
      synthesize_to_audio_array engine voice text
          volume speed noise noise_w normalize = (some audio, rate, "Success") ∧
      fileWav.samples.length = audio.length ∧
      fileWav.sampleRate = rate := by
  refine ⟨w, w.samples, w.sampleRate, ?_, ?_, rfl, rfl⟩
  · simp [synthesize_to_wav, hok]
  · simp [synthesize_to_audio_array, hok]

/-- C5 (witness): the round-trip theorem at a concrete engine producing a
three-sample 22050 Hz buffer. -/
theorem c5_export_roundtrip_witness :
    ∃ fileWav audio rate,
      (synthesize_to_wav (fun _ _ _ => Except.ok ⟨22050, [1, -2, 3]⟩)
          (fun _ => none) ⟨1, 22050⟩ "hello" "out/speech.wav"
          100 100 66 80 false).1 "out/speech.wav" = some fileWav ∧
      synthesize_to_audio_array (fun _ _ _ => Except.ok ⟨22050, [1, -2, 3]⟩)
          ⟨1, 22050⟩ "hello" 100 100 66 80 false
        = (some audio, rate, "Success") ∧
      fileWav.samples.length = audio.length ∧
      fileWav.sampleRate = rate :=
  c5_export_roundtrip_matches_direct (fun _ _ _ => Except.ok ⟨22050, [1, -2, 3]⟩)
    (fun _ => none) ⟨1, 22050⟩ "hello" "out/speech.wav"
    100 100 66 80 false ⟨22050, [1, -2, 3]⟩ rfl

/-- C7: `_export_wav` with no current voice, or with whitespace-only text,
emits exactly the local validation message synchronously, spawns no
worker task and leaves the filesystem untouched; otherwise (voice loaded,
non-empty stripped text, a path chosen in the dialog) it spawns the
worker, emits "Generating WAV..." and then either "Saved: name" with the
container written at the chosen path, or "Export error: …" from an engine
failure. -/
theorem c7_export_validation_and_report (engine : SynthEngine)
    (fs0 : String → Option WavData) (ui : UISt) (dialogPath : Option String) :
    (ui.voice = none →
      export_wav engine fs0 ui dialogPath
        = ⟨["Load a voice model first"], false, fs0⟩) ∧
    (∀ v, ui.voice = some v → pyStrip ui.text = "" →
      export_wav engine fs0 ui dialogPath
        = ⟨["Enter text to speak"], false, fs0⟩) ∧
    (∀ v filePath, ui.voice = some v → pyStrip ui.text ≠ "" →
      dialogPath = some filePath →
      (export_wav engine fs0 ui dialogPath).spawnedTask = true ∧
      ((∃ wv, engine v (pyStrip ui.text)
            (mkSynthesisConfig ui.volume ui.speed ui.noise ui.noise_w
              ui.normalize) = Except.ok wv ∧
          (export_wav engine fs0 ui dialogPath).statuses
            = ["Generating WAV...", "Saved: " ++ baseName filePath] ∧
          (export_wav engine fs0 ui dialogPath).fs filePath = some wv) ∨
       (∃ e, engine v (pyStrip ui.text)
            (mkSynthesisConfig ui.volume ui.speed ui.noise ui.noise_w
              ui.normalize) = Except.error e ∧
          (export_wav engine fs0 ui dialogPath).statuses
            = ["Generating WAV...", "Export error: " ++ e] ∧
          (export_wav engine fs0 ui dialogPath).fs = fs0))) := by
  refine ⟨?_, ?_, ?_⟩
  · intro h
    simp [export_wav, h]
  · intro v hv ht
    simp [export_wav, hv, ht]
  · intro v filePath hv ht hd
    subst hd
    cases hw : engine v (pyStrip ui.text)
        (mkSynthesisConfig ui.volume ui.speed ui.noise ui.noise_w ui.normalize)
    · refine ⟨?_, Or.inr ⟨_, rfl, ?_, ?_⟩⟩ <;>
        simp [export_wav, hv, ht, synthesize_to_wav, hw]
    · refine ⟨?_, Or.inl ⟨_, rfl, ?_, ?_⟩⟩ <;>
        simp [export_wav, hv, ht, synthesize_to_wav, hw]

/-- C7 (witness): the validation part applied to a UI with no voice
loaded, and the export part applied to a UI with a voice, text "hi" and a
successful engine — "Saved: speech.wav" and the file present. -/
theorem c7_export_witness :
    export_wav (fun _ _ _ => Except.ok ⟨22050, [5]⟩) (fun _ => none)
        ⟨none, "hi", 100, 100, 66, 80, false⟩ (some "speech.wav")
      = ⟨["Load a voice model first"], false, fun _ => none⟩ ∧
    (export_wav (fun _ _ _ => Except.ok ⟨22050, [5]⟩) (fun _ => none)
        ⟨some ⟨1, 22050⟩, "hi", 100, 100, 66, 80, false⟩
        (some "speech.wav")).spawnedTask = true :=
  ⟨(c7_export_validation_and_report (fun _ _ _ => Except.ok ⟨22050, [5]⟩)
      (fun _ => none) ⟨none, "hi", 100, 100, 66, 80, false⟩
      (some "speech.wav")).1 rfl,
   ((c7_export_validation_and_report (fun _ _ _ => Except.ok ⟨22050, [5]⟩)
      (fun _ => none) ⟨some ⟨1, 22050⟩, "hi", 100, 100, 66, 80, false⟩
      (some "speech.wav")).2.2 ⟨1, 22050⟩ "speech.wav" rfl (by decide) rfl).1⟩

/-- C8: synthesis parameters are captured by value into the worker closure
at submission time (`voice = self.voice; volume = self.volume.value(); …`),
so for any two runs that differ only in UI widget changes made after an
export or play task was submitted, the submitted task computes the
identical output. -/
theorem c8_params_captured_at_submission (engine : SynthEngine)
    (fs0 : String → Option WavData) (w : Win) (filePath : String)
    (ms1 ms2 : List UIMut) :
    runPendingExport engine fs0 (uiSteps (submitExport w filePath) ms1)
      = runPendingExport engine fs0 (uiSteps (submitExport w filePath) ms2) ∧
    runPendingPlay engine (uiSteps (submitPlay w) ms1)
      = runPendingPlay engine (uiSteps (submitPlay w) ms2) := by
  exact ⟨rfl, rfl⟩

/-- C10: `download_voice_model` redirects `sys.argv`, `sys.stdout` and
`sys.stderr` and its `finally` block restores all three from the saved
values, so applying the function's full assignment trace to the initial
interpreter state is the identity on every exit path — successful
download, failed download (`SystemExit` with any code), an `Exception`
from the downloader, and a propagating `BaseException`. -/
theorem c10_download_restores_sys_globals (s0 : SysSt) (voiceId : String)
    (outcome : DlOutcome) (bufText : String) (bufH : Nat) :
    applySysAssigns s0
      (download_voice_model s0 voiceId outcome bufText bufH).1 = s0 := by
  rfl
